import Mathlib

/-!
Verification of the LiveChatOverlay server core against its design notes.

This file gives a shallow embedding, in Lean 4, of the parts of the
repository that the specification talks about:

* the server configuration manager (embedded listing in `README.md`,
  functions `getConfig`, `updateConfig`, `connectPlatform`,
  `disconnectPlatform`, `getActiveConnections`);
* the WebSocket client manager (`src/websocket/clientManager.js`:
  `broadcast`, `sendToClient`);
* the WebSocket message handlers (`src/websocket/messageHandlers.js`);
* the connection hook of the WebSocket server (`wss.on` in `README.md`);
* the TTL cache (`src/cache/LiveStreamCache.js`).

JavaScript numbers that the code only ever uses as integers (timestamps in
milliseconds, counts) are modelled as `Nat`/`Int`; fractional settings such
as the volume are modelled as `Rat`.  JavaScript objects are modelled as
structures; object spread (shallow copy / shallow merge) is modelled
field by field.  The one place where reference sharing of a nested object
is observable (`getConfig` returning a spread copy whose `platforms` field
still aliases the store) is modelled separately with an explicit heap of
platform objects.
-/

namespace LiveChatOverlay

/-- Model of JavaScript `Math.round(n / d)` for an integer numerator `n`
and positive integer denominator `d`:  `Math.round x = ⌊x + 1/2⌋`
(halves round toward positive infinity), so the result is
`⌊(2n + d) / (2d)⌋` using flooring integer division. -/
def jsRoundDiv (n : Int) (d : Int) : Int :=
  Int.fdiv (2 * n + d) (2 * d)

/-- JavaScript truthiness of a possibly-absent string:  `undefined`,
`null` and the empty string are falsy, every other string is truthy. -/
def jsTruthy : Option String → Bool
  | none => false
  | some s => s != ""

/-! ## LiveStreamCache (`src/cache/LiveStreamCache.js`)

The JavaScript `Map` backing the cache is modelled as an
insertion-ordered association list; `Map.prototype.set` keeps the
position of an existing key and appends a new one, which the model
mirrors.  `Date.now()` is passed in explicitly as a millisecond
timestamp. -/

/-- A cache entry as stored by `LiveStreamCache.set`:
`{ data, timestamp: Date.now() }`. -/
structure CacheItem (α : Type) where
  data : α
  timestamp : Nat
deriving Repr, DecidableEq

/-- The cache state:  the backing `Map` and the TTL in milliseconds. -/
structure LiveStreamCache (α : Type) where
  cache : List (String × CacheItem α)
  ttl : Nat
deriving Repr, DecidableEq

/-- `Map.prototype.get`: the binding of the key, if any. -/
def mapGet {α : Type} : List (String × CacheItem α) → String →
    Option (CacheItem α)
  | [], _ => none
  | (k', v') :: rest, k => if k' == k then some v' else mapGet rest k

/-- `Map.prototype.set`: overwrite in place, or append a new binding. -/
def mapSet {α : Type} : List (String × CacheItem α) → String → CacheItem α →
    List (String × CacheItem α)
  | [], k, v => [(k, v)]
  | (k', v') :: rest, k, v =>
    if k' == k then (k, v) :: rest else (k', v') :: mapSet rest k v

/-- `Map.prototype.delete` (just the resulting map). -/
def mapDelete {α : Type} : List (String × CacheItem α) → String →
    List (String × CacheItem α)
  | [], _ => []
  | (k', v') :: rest, k =>
    if k' == k then rest else (k', v') :: mapDelete rest k

namespace LiveStreamCache

/-- The constructor `new LiveStreamCache(ttlMinutes = 5)`:
`this.ttl = ttlMinutes * 60 * 1000`. -/
def init (α : Type) (ttlMinutes : Nat := 5) : LiveStreamCache α :=
  { cache := [], ttl := ttlMinutes * 60 * 1000 }

/-- `get(key)` at clock value `now`:  returns the cached data and the
cache state afterwards.  A missing key returns `null`; an entry whose age
`now - timestamp` exceeds `this.ttl` is deleted and `null` is returned;
otherwise the stored data is returned and the state is unchanged. -/
def get {α : Type} (c : LiveStreamCache α) (key : String) (now : Nat) :
    Option α × LiveStreamCache α :=
  match mapGet c.cache key with
  | none => (none, c)
  | some item =>
    let age : Int := (now : Int) - (item.timestamp : Int)
    if age > (c.ttl : Int) then
      (none, { c with cache := mapDelete c.cache key })
    else
      (some item.data, c)

/-- `set(key, data)` at clock value `now`:
`this.cache.set(key, { data, timestamp: Date.now() })`. -/
def set {α : Type} (c : LiveStreamCache α) (key : String) (data : α)
    (now : Nat) : LiveStreamCache α :=
  { c with cache := mapSet c.cache key { data := data, timestamp := now } }

/-- `clear()`. -/
def clear {α : Type} (c : LiveStreamCache α) : LiveStreamCache α :=
  { c with cache := [] }

/-- `has(key)`:  `this.cache.has(key)`, with no expiry check. -/
def has {α : Type} (c : LiveStreamCache α) (key : String) : Bool :=
  (mapGet c.cache key).isSome

/-- `delete(key)`:  whether the key existed, and the state afterwards. -/
def delete {α : Type} (c : LiveStreamCache α) (key : String) :
    Bool × LiveStreamCache α :=
  ((mapGet c.cache key).isSome, { c with cache := mapDelete c.cache key })

end LiveStreamCache

/-- One element of `getStats().entries`. -/
structure StatEntry where
  key : String
  ageSeconds : Int
  expiresInSeconds : Int
deriving Repr, DecidableEq

/-- The record returned by `getStats()`. -/
structure Stats where
  size : Nat
  ttlMinutes : Nat
  entries : List StatEntry
deriving Repr, DecidableEq

/-- `getStats()` at clock value `now`:  iterates over all entries of the
backing map with no expiry check; per entry it reports
`ageSeconds = Math.round(age / 1000)` and
`expiresInSeconds = Math.round((ttl - age) / 1000)`.
(`ttlMinutes = this.ttl / 60000` is exact because the constructor always
sets `ttl` to a whole number of minutes.) -/
def LiveStreamCache.getStats {α : Type} (c : LiveStreamCache α) (now : Nat) :
    Stats :=
  { size := c.cache.length
    ttlMinutes := c.ttl / 60000
    entries := c.cache.map (fun p =>
      let age : Int := (now : Int) - (p.2.timestamp : Int)
      { key := p.1
        ageSeconds := jsRoundDiv age 1000
        expiresInSeconds := jsRoundDiv ((c.ttl : Int) - age) 1000 }) }

/-! ## Static configuration (`config.js`)

Only the fields that the configuration manager reads are modelled.  The
JavaScript fallbacks `config.x || \x7b\x7d` on string fields are the
identity on strings (the empty string falls back to the empty string),
so they disappear in the model. -/

/-- The `youtube` section of `config.js`, as read by the manager. -/
structure YoutubeSettings where
  apiKey : String
  channelId : String
  defaultVideoId : String
  simulationMode : Bool
deriving Repr, DecidableEq

/-- The `twitch` section of `config.js`, as read by the manager. -/
structure TwitchSettings where
  defaultChannel : String
  botUsername : String
deriving Repr, DecidableEq

/-- The `overlay` section of `config.js`, as read by the manager. -/
structure OverlaySettings where
  maxMessages : Nat
  soundEnabled : Bool
  soundVolume : Rat
  showUsername : Bool
  showAvatar : Bool
  showPlatformIcon : Bool
  avatarShape : String
  backgroundColor : String
  backgroundOpacity : Rat
  borderRadius : Rat
  blurEffect : Bool
deriving Repr, DecidableEq

/-- The static configuration file. -/
structure StaticConfig where
  youtube : YoutubeSettings
  twitch : TwitchSettings
  overlay : OverlaySettings
deriving Repr, DecidableEq

/-! ## Configuration manager (listing embedded in `README.md`)

`currentConfig` is an object with the two-platform `platforms` sub-object
plus flat display and API fields.  The value-level model below treats the
document as a pure value; the reference-level model used for the
defensive-copy question follows further down. -/

/-- `currentConfig.platforms.youtube`. -/
structure YoutubeConn where
  enabled : Bool
  videoId : String
deriving Repr, DecidableEq

/-- `currentConfig.platforms.twitch`. -/
structure TwitchConn where
  enabled : Bool
  channelId : String
deriving Repr, DecidableEq

/-- `currentConfig.platforms`. -/
structure Platforms where
  youtube : YoutubeConn
  twitch : TwitchConn
deriving Repr, DecidableEq

/-- `currentConfig.twitchConfig`. -/
structure TwitchClientConfig where
  botUsername : String
deriving Repr, DecidableEq

/-- The flat (non-`platforms`) fields of `currentConfig`, in source
order. -/
structure ConfigTop where
  theme : String
  maxMessages : Nat
  soundEnabled : Bool
  volume : Rat
  showUsername : Bool
  showAvatar : Bool
  showPlatformIcon : Bool
  avatarShape : String
  bgColor : String
  bgOpacity : Rat
  borderRadius : Rat
  blurEffect : Bool
  customCSS : String
  youtubeApiKey : String
  youtubeChannelId : String
  youtubeSimulationMode : Bool
  twitchDefaultChannel : String
  twitchConfig : TwitchClientConfig
deriving Repr, DecidableEq

/-- The full configuration document `currentConfig`. -/
structure ConfigDoc where
  platforms : Platforms
  top : ConfigTop
deriving Repr, DecidableEq

/-- The initial value of `currentConfig`, built from the static
configuration at module load. -/
def initialConfig (cfg : StaticConfig) : ConfigDoc :=
  { platforms :=
      { youtube := { enabled := false, videoId := cfg.youtube.defaultVideoId }
        twitch := { enabled := false, channelId := cfg.twitch.defaultChannel } }
    top :=
      { theme := "neon"
        maxMessages := cfg.overlay.maxMessages
        soundEnabled := cfg.overlay.soundEnabled
        volume := cfg.overlay.soundVolume
        showUsername := cfg.overlay.showUsername
        showAvatar := cfg.overlay.showAvatar
        showPlatformIcon := cfg.overlay.showPlatformIcon
        avatarShape := cfg.overlay.avatarShape
        bgColor := cfg.overlay.backgroundColor
        bgOpacity := cfg.overlay.backgroundOpacity
        borderRadius := cfg.overlay.borderRadius
        blurEffect := cfg.overlay.blurEffect
        customCSS := ""
        youtubeApiKey := cfg.youtube.apiKey
        youtubeChannelId := cfg.youtube.channelId
        youtubeSimulationMode := cfg.youtube.simulationMode
        twitchDefaultChannel := cfg.twitch.defaultChannel
        twitchConfig := { botUsername := cfg.twitch.botUsername } } }

/-- `getConfig()` at the value level:  the snapshot handed to callers.
The spread-copy aliasing of the nested `platforms` object is modelled
separately by `getConfigRef`. -/
def getConfig (c : ConfigDoc) : ConfigDoc := c

/-- A partial update as sent to `updateConfig`:  each top-level key of
`currentConfig` may be present or absent.  (The code also accepts keys
outside this set; they do not affect any modelled field.) -/
structure ConfigUpdate where
  platforms : Option Platforms := none
  theme : Option String := none
  maxMessages : Option Nat := none
  soundEnabled : Option Bool := none
  volume : Option Rat := none
  showUsername : Option Bool := none
  showAvatar : Option Bool := none
  showPlatformIcon : Option Bool := none
  avatarShape : Option String := none
  bgColor : Option String := none
  bgOpacity : Option Rat := none
  borderRadius : Option Rat := none
  blurEffect : Option Bool := none
  customCSS : Option String := none
  youtubeApiKey : Option String := none
  youtubeChannelId : Option String := none
  youtubeSimulationMode : Option Bool := none
  twitchDefaultChannel : Option String := none
  twitchConfig : Option TwitchClientConfig := none
deriving Repr, DecidableEq

/-- `updateConfig(updates)`:
`currentConfig = \x7b ...currentConfig, ...updates \x7d` — a shallow
last-writer-wins merge of the top-level keys; a present `platforms` key
replaces the whole `platforms` object.  No key is validated and no value
is clamped. -/
def updateConfig (u : ConfigUpdate) (c : ConfigDoc) : ConfigDoc :=
  { platforms := u.platforms.getD c.platforms
    top :=
      { theme := u.theme.getD c.top.theme
        maxMessages := u.maxMessages.getD c.top.maxMessages
        soundEnabled := u.soundEnabled.getD c.top.soundEnabled
        volume := u.volume.getD c.top.volume
        showUsername := u.showUsername.getD c.top.showUsername
        showAvatar := u.showAvatar.getD c.top.showAvatar
        showPlatformIcon := u.showPlatformIcon.getD c.top.showPlatformIcon
        avatarShape := u.avatarShape.getD c.top.avatarShape
        bgColor := u.bgColor.getD c.top.bgColor
        bgOpacity := u.bgOpacity.getD c.top.bgOpacity
        borderRadius := u.borderRadius.getD c.top.borderRadius
        blurEffect := u.blurEffect.getD c.top.blurEffect
        customCSS := u.customCSS.getD c.top.customCSS
        youtubeApiKey := u.youtubeApiKey.getD c.top.youtubeApiKey
        youtubeChannelId := u.youtubeChannelId.getD c.top.youtubeChannelId
        youtubeSimulationMode :=
          u.youtubeSimulationMode.getD c.top.youtubeSimulationMode
        twitchDefaultChannel :=
          u.twitchDefaultChannel.getD c.top.twitchDefaultChannel
        twitchConfig := u.twitchConfig.getD c.top.twitchConfig } }

/-- The `data` payload of a `connect` message:  a `platform` name plus
the optional platform-specific identifier fields. -/
structure ConnectionData where
  platform : String
  videoId : Option String := none
  channelId : Option String := none
deriving Repr, DecidableEq

/-- `connectPlatform(platform, connectionData)` (state transition only;
the returned list of active connections is `getActiveConnections`).
The guard on each branch is JavaScript truthiness of the identifier, so
a missing or empty identifier, or an unrecognized platform name, leaves
the document unchanged. -/
def connectPlatform (platform : String) (d : ConnectionData)
    (c : ConfigDoc) : ConfigDoc :=
  if platform = "youtube" ∧ jsTruthy d.videoId then
    { c with platforms :=
        { c.platforms with youtube :=
            { enabled := true, videoId := d.videoId.getD "" } } }
  else if platform = "twitch" ∧ jsTruthy d.channelId then
    { c with platforms :=
        { c.platforms with twitch :=
            { enabled := true, channelId := d.channelId.getD "" } } }
  else c

/-- `disconnectPlatform(platform = null)`:  a falsy argument (null or
the empty string) clears both platforms; a recognized name clears that
platform; any other name is a no-op. -/
def disconnectPlatform (platform : Option String) (c : ConfigDoc) :
    ConfigDoc :=
  if ¬ jsTruthy platform then
    { c with platforms :=
        { youtube := { enabled := false, videoId := "" }
          twitch := { enabled := false, channelId := "" } } }
  else if platform = some "youtube" then
    { c with platforms :=
        { c.platforms with youtube := { enabled := false, videoId := "" } } }
  else if platform = some "twitch" then
    { c with platforms :=
        { c.platforms with twitch := { enabled := false, channelId := "" } } }
  else c

/-- `getActiveConnections()`: the display names of the enabled
platforms, YouTube first. -/
def getActiveConnections (c : ConfigDoc) : List String :=
  (if c.platforms.youtube.enabled then ["YouTube"] else []) ++
    (if c.platforms.twitch.enabled then ["Twitch"] else [])

/-- `isMultistreamActive()`. -/
def isMultistreamActive (c : ConfigDoc) : Bool :=
  decide ((getActiveConnections c).length > 1)

/-- The documents reachable from startup under the configuration
manager transitions (`updateConfig`, `connectPlatform`,
`disconnectPlatform`). -/
inductive Reachable (cfg : StaticConfig) : ConfigDoc → Prop
  | init : Reachable cfg (initialConfig cfg)
  | update (u : ConfigUpdate) {c : ConfigDoc} :
      Reachable cfg c → Reachable cfg (updateConfig u c)
  | connect (p : String) (d : ConnectionData) {c : ConfigDoc} :
      Reachable cfg c → Reachable cfg (connectPlatform p d c)
  | disconnect (p : Option String) {c : ConfigDoc} :
      Reachable cfg c → Reachable cfg (disconnectPlatform p c)

/-! ## Client manager (`src/websocket/clientManager.js`)

A session is a WebSocket handle; `readyState` follows the WebSocket
numeric states (`OPEN = 1`).  Whether the transport `send` primitive
succeeds or raises on this session is part of the session model
(`sendOk`).  Transport writes and serializations are recorded as an
effect trace. -/

/-- One connected WebSocket client. -/
structure Session where
  id : Nat
  readyState : Nat
  sendOk : Bool
deriving Repr, DecidableEq

/-- `WebSocket.OPEN`. -/
def WebSocketOPEN : Nat := 1

/-- Observable transport effects:  one `JSON.stringify` call, or one
`send` of a payload to a session. -/
inductive Effect
  | serialize (payload : String)
  | send (sid : Nat) (payload : String)
deriving Repr, DecidableEq

/-- The `clients.forEach` loop body of `broadcast`:  skip non-open
sessions; send to open ones; a raising `send` aborts the loop and the
error propagates (there is no try/catch in `broadcast`).  Returns the
send effects that happened and the propagated error, if any. -/
def broadcastLoop (message : String) :
    List Session → List Effect × Option String
  | [] => ([], none)
  | client :: rest =>
    if client.readyState = WebSocketOPEN then
      if client.sendOk then
        let (es, err) := broadcastLoop message rest
        (Effect.send client.id message :: es, err)
      else
        ([], some "send failed")
    else
      broadcastLoop message rest

/-- `broadcast(data)`:  `JSON.stringify` once, then the forEach loop.
Returns the client set (which `broadcast` never modifies), the effect
trace, and the propagated error, if any.  `stringify` abstracts the
JSON serialization of an outbound message. -/
def broadcast {μ : Type} (stringify : μ → String) (clients : List Session)
    (data : μ) : List Session × List Effect × Option String :=
  let message := stringify data
  let (sends, err) := broadcastLoop message clients
  (clients, Effect.serialize message :: sends, err)

/-- `sendToClient(client, data)`:  serializes and sends only if the
client is open; returns the effects, the boolean result, and the
propagated error if `send` raises. -/
def sendToClient {μ : Type} (stringify : μ → String) (client : Session)
    (data : μ) : List Effect × Bool × Option String :=
  if client.readyState = WebSocketOPEN then
    if client.sendOk then
      ([Effect.serialize (stringify data),
        Effect.send client.id (stringify data)], true, none)
    else
      ([Effect.serialize (stringify data)], false, some "send failed")
  else
    ([], false, none)

/-! ## Message handlers (`src/websocket/messageHandlers.js`)

Each handler computes the next document and the list of outbound
broadcasts it performs. -/

/-- The `data` payload of a `chat-message`. -/
structure ChatData where
  username : String
  text : String
  platform : String
deriving Repr, DecidableEq

/-- Outbound messages the server broadcasts. -/
inductive OutMsg
  | config (doc : ConfigDoc)
  | chatMessage (m : ChatData)
  | testSound
deriving Repr, DecidableEq

/-- A parsed inbound envelope, by its `type` tag. -/
inductive InMsg
  | config (u : ConfigUpdate)
  | chatMessage (m : ChatData)
  | connect (d : ConnectionData)
  | disconnect (platform : Option String)
  | testSound
  | unknown (t : String)
deriving Repr, DecidableEq

/-- `handleConfigUpdate(configUpdate)`:  merge, then broadcast the
updated full document. -/
def handleConfigUpdate (u : ConfigUpdate) (c : ConfigDoc) :
    ConfigDoc × List OutMsg :=
  let c' := updateConfig u c
  (c', [OutMsg.config (getConfig c')])

/-- `handleChatMessage(messageData)`:  broadcast verbatim, no state
change. -/
def handleChatMessage (m : ChatData) (c : ConfigDoc) :
    ConfigDoc × List OutMsg :=
  (c, [OutMsg.chatMessage m])

/-- `handlePlatformConnect(connectionData)`:  apply `connectPlatform`,
then unconditionally broadcast the full current document. -/
def handlePlatformConnect (d : ConnectionData) (c : ConfigDoc) :
    ConfigDoc × List OutMsg :=
  let c' := connectPlatform d.platform d c
  (c', [OutMsg.config (getConfig c')])

/-- `handlePlatformDisconnect(disconnectData)`:
`platform = disconnectData?.platform || null`, apply
`disconnectPlatform`, then broadcast the full current document. -/
def handlePlatformDisconnect (platform : Option String) (c : ConfigDoc) :
    ConfigDoc × List OutMsg :=
  let p := if jsTruthy platform then platform else none
  let c' := disconnectPlatform p c
  (c', [OutMsg.config (getConfig c')])

/-- `handleMessage` after a successful `JSON.parse`:  dispatch on the
`type` tag; an unknown tag only logs a warning. -/
def handleMessage (m : InMsg) (c : ConfigDoc) : ConfigDoc × List OutMsg :=
  match m with
  | InMsg.config u => handleConfigUpdate u c
  | InMsg.chatMessage md => handleChatMessage md c
  | InMsg.connect d => handlePlatformConnect d c
  | InMsg.disconnect p => handlePlatformDisconnect p c
  | InMsg.testSound => (c, [OutMsg.testSound])
  | InMsg.unknown _ => (c, [])

/-- A connect payload is valid when its platform-specific identifier is
truthy for a recognized platform name; exactly these payloads change the
document in `connectPlatform`. -/
def validConnect (d : ConnectionData) : Prop :=
  (d.platform = "youtube" ∧ jsTruthy d.videoId)
    ∨ (d.platform = "twitch" ∧ jsTruthy d.channelId)

instance (d : ConnectionData) : Decidable (validConnect d) := by
  unfold validConnect
  infer_instance

/-! ## The WebSocket server loop (`wss.on` handlers in `README.md`)

External occurrences — a new connection being accepted, a client socket
closing, an inbound message (already parsed, or unparseable) — drive a
step machine over the server state.  `handleMessage` wraps its whole body
in try/catch, so an error propagating out of `broadcast` is swallowed
there after aborting that broadcast. -/

/-- The server state:  the client set (insertion-ordered, as a JS `Set`)
and `currentConfig`. -/
structure ServerState where
  clients : List Session
  doc : ConfigDoc

/-- External events driving the server. -/
inductive SEvent
  | connection (s : Session)
  | clientClose (sid : Nat)
  | clientMessage (m : Option InMsg)

/-- One server step:  `connection` registers the client and unicasts the
current configuration snapshot to it; `close` unregisters; a parsed
message runs `handleMessage` and broadcasts to the registered clients;
an unparseable message is dropped. -/
def step (stringify : OutMsg → String) (σ : ServerState) :
    SEvent → ServerState × List Effect
  | SEvent.connection s =>
    ({ σ with clients := σ.clients ++ [s] },
      (sendToClient stringify s (OutMsg.config (getConfig σ.doc))).1)
  | SEvent.clientClose sid =>
    ({ σ with clients := σ.clients.filter (fun c => c.id ≠ sid) }, [])
  | SEvent.clientMessage none => (σ, [])
  | SEvent.clientMessage (some m) =>
    let (doc', outs) := handleMessage m σ.doc
    ({ σ with doc := doc' },
      outs.flatMap (fun o => (broadcast stringify σ.clients o).2.1))

/-- Run the server on a list of events, concatenating the effect
traces. -/
def run (stringify : OutMsg → String) (σ : ServerState) :
    List SEvent → ServerState × List Effect
  | [] => (σ, [])
  | e :: es =>
    let (σ', effs) := step stringify σ e
    let (σ'', rest) := run stringify σ' es
    (σ'', effs ++ rest)

/-- The payloads delivered to session `sid`, in order, within an effect
trace. -/
def sendsTo (sid : Nat) (effs : List Effect) : List String :=
  effs.filterMap (fun e =>
    match e with
    | Effect.send i p => if i = sid then some p else none
    | Effect.serialize _ => none)

/-! ## Reference-level model of `getConfig`

`getConfig` returns `\x7b ...currentConfig \x7d`:  a new object whose
flat fields are copied by value but whose `platforms` field is the same
object reference as the store.  To make that observable, the platform
objects live in an explicit heap of reference cells, and the store and
every returned snapshot carry a reference into that heap. -/

/-- A configuration object as seen through references:  flat fields by
value, the `platforms` sub-object by reference. -/
structure RefDoc where
  top : ConfigTop
  platformsRef : Nat
deriving Repr, DecidableEq

/-- The mutable world:  a heap of platform objects and the store
(`currentConfig`), which is itself a `RefDoc`. -/
structure RefState where
  heap : Nat → Platforms
  store : RefDoc

/-- `getConfig()` at the reference level:  the spread copies the flat
fields by value and the `platforms` reference as a reference. -/
def getConfigRef (w : RefState) : RefDoc :=
  { top := w.store.top, platformsRef := w.store.platformsRef }

/-- Dereference a snapshot:  the document a reader of `d` observes in
world `w`. -/
def derefConfig (w : RefState) (d : RefDoc) : ConfigDoc :=
  { platforms := w.heap d.platformsRef, top := d.top }

/-- What a later `getConfig()` caller observes:  the store snapshot,
dereferenced in the current world. -/
def readStore (w : RefState) : ConfigDoc := derefConfig w w.store

/-- A caller assigning `d.platforms.youtube.videoId = v` on a document
object `d` it holds:  mutates the heap cell that `d` references. -/
def writeYoutubeVideoId (w : RefState) (d : RefDoc) (v : String) :
    RefState :=
  { w with heap := fun r =>
      if r = d.platformsRef then
        { w.heap r with youtube := { (w.heap r).youtube with videoId := v } }
      else w.heap r }

/-! ## Concrete configurations and the platform invariant -/

/-- A static configuration with empty default identifiers and a
placeholder API key, used for concrete runs. -/
def sampleCfg : StaticConfig :=
  { youtube :=
      { apiKey := "SECRET-API-KEY-123"
        channelId := "UCchannel"
        defaultVideoId := ""
        simulationMode := false }
    twitch := { defaultChannel := "", botUsername := "justinfan12345" }
    overlay :=
      { maxMessages := 6
        soundEnabled := true
        soundVolume := 1/2
        showUsername := true
        showAvatar := true
        showPlatformIcon := true
        avatarShape := "circle"
        backgroundColor := "#000000"
        backgroundOpacity := 55
        borderRadius := 18
        blurEffect := true } }

/-- The per-platform connection invariant claimed by the design notes:
a platform is enabled exactly when its identifier is non-empty. -/
def platformInvariant (c : ConfigDoc) : Prop :=
  (c.platforms.youtube.enabled = true ↔ c.platforms.youtube.videoId ≠ "")
    ∧ (c.platforms.twitch.enabled = true ↔ c.platforms.twitch.channelId ≠ "")

instance (c : ConfigDoc) : Decidable (platformInvariant c) := by
  unfold platformInvariant
  infer_instance

/-! ## Supporting lemmas -/

theorem mapGet_mapSet_self {α : Type} (l : List (String × CacheItem α))
    (k : String) (v : CacheItem α) : mapGet (mapSet l k v) k = some v := by
  induction l with
  | nil => simp [mapSet, mapGet]
  | cons p rest ih =>
    rcases p with ⟨k', v'⟩
    by_cases h : (k' == k)
    · simp [mapSet, mapGet, h]
    · simp [mapSet, mapGet, h, ih]

theorem mem_mapSet_self {α : Type} (l : List (String × CacheItem α))
    (k : String) (v : CacheItem α) : (k, v) ∈ mapSet l k v := by
  induction l with
  | nil => simp [mapSet]
  | cons p rest ih =>
    rcases p with ⟨k', v'⟩
    by_cases h : (k' == k)
    · simp [mapSet, h]
    · simp only [mapSet, h, if_false, Bool.false_eq_true, List.mem_cons]
      exact Or.inr ih

theorem jsRoundDiv_nonpos {n : Int} (h : n < 0) : jsRoundDiv n 1000 ≤ 0 := by
  unfold jsRoundDiv
  rw [Int.fdiv_eq_ediv _ (by norm_num)]
  omega

/-! ## Claim theorems for the cache -/

/-- C9:  for every key `k`, if `set(k, v)` was called at time `t` and
`get(k)` is called at time `now`, then with `now - t ≤ ttl` the call
returns `v` and leaves the cache unchanged; with `now - t > ttl` it
evicts the entry and returns absent; on a key with no entry it returns
absent; and the default TTL is five minutes (300000 milliseconds). -/
theorem cache_get_respects_ttl {α : Type} (c : LiveStreamCache α)
    (k : String) (v : α) (t now : Nat) :
    ((now : Int) - (t : Int) ≤ (c.ttl : Int) →
      (c.set k v t).get k now = (some v, c.set k v t))
    ∧ ((c.ttl : Int) < (now : Int) - (t : Int) →
      (c.set k v t).get k now =
        (none, { c with cache := mapDelete (mapSet c.cache k ⟨v, t⟩) k }))
    ∧ (mapGet c.cache k = none → c.get k now = (none, c))
    ∧ (LiveStreamCache.init α).ttl = 5 * 60 * 1000 := by
  refine ⟨?_, ?_, ?_, rfl⟩
  · intro h
    simp only [LiveStreamCache.get, LiveStreamCache.set, mapGet_mapSet_self]
    rw [if_neg]
    omega
  · intro h
    simp only [LiveStreamCache.get, LiveStreamCache.set, mapGet_mapSet_self]
    rw [if_pos]
    omega
  · intro h
    simp [LiveStreamCache.get, h]

/-- Witness for `cache_get_respects_ttl` at a concrete cache, key and
clock values. -/
theorem cache_get_respects_ttl_witness :
    (((LiveStreamCache.init String).set "chan1" "payload" 0).get "chan1" 300000
        = (some "payload", (LiveStreamCache.init String).set "chan1" "payload" 0))
    ∧ (((LiveStreamCache.init String).set "chan1" "payload" 0).get "chan1" 300001
        = (none, LiveStreamCache.init String))
    ∧ ((LiveStreamCache.init String).get "chan1" 42
        = (none, LiveStreamCache.init String)) := by
  have h := cache_get_respects_ttl (LiveStreamCache.init String) "chan1" "payload" 0
  refine ⟨(h 300000).1 (by decide), ?_, (h 42).2.2.1 (by decide)⟩
  have h2 := (h 300001).2.1 (by decide)
  simpa using h2

/-- C10 counterexample:  a cache entry one millisecond past its TTL is
still reported by `has` and `getStats`, but its `expiresInSeconds` is
`Math.round(-1 / 1000) = 0`, which is not negative. -/
theorem expired_stats_entry_not_negative :
    ((((LiveStreamCache.init String).set "chan1" "payload" 0).ttl : Int)
        < (300001 : Int) - (0 : Int))
    ∧ ((LiveStreamCache.init String).set "chan1" "payload" 0).has "chan1" = true
    ∧ (((LiveStreamCache.init String).set "chan1" "payload" 0).getStats 300001).size = 1
    ∧ ¬ (∀ e ∈ (((LiveStreamCache.init String).set "chan1" "payload" 0).getStats
          300001).entries, e.expiresInSeconds < 0) := by
  decide

/-- C10 amended:  an entry whose age exceeds the TTL, untouched by
`get`, `delete` or `clear`, is still reported:  `has` returns true,
`getStats` counts it in `size` and lists it, with a non-positive (not
necessarily negative) `expiresInSeconds`. -/
theorem has_and_stats_ignore_expiry {α : Type} (c : LiveStreamCache α)
    (k : String) (v : α) (t now : Nat)
    (hexp : (c.ttl : Int) < (now : Int) - (t : Int)) :
    (c.set k v t).has k = true
    ∧ ((c.set k v t).getStats now).size = (c.set k v t).cache.length
    ∧ ∃ e ∈ ((c.set k v t).getStats now).entries,
        e.key = k ∧ e.expiresInSeconds ≤ 0 := by
  refine ⟨?_, rfl, ?_⟩
  · simp [LiveStreamCache.has, LiveStreamCache.set, mapGet_mapSet_self]
  · refine ⟨{ key := k
              ageSeconds := jsRoundDiv ((now : Int) - (t : Int)) 1000
              expiresInSeconds :=
                jsRoundDiv ((c.ttl : Int) - ((now : Int) - (t : Int))) 1000 },
      ?_, rfl, ?_⟩
    · simp only [LiveStreamCache.getStats, LiveStreamCache.set, List.mem_map]
      exact ⟨(k, ⟨v, t⟩), mem_mapSet_self c.cache k ⟨v, t⟩, rfl⟩
    · exact jsRoundDiv_nonpos (by omega)

/-- Witness for `has_and_stats_ignore_expiry` on a concrete expired
entry. -/
theorem has_and_stats_ignore_expiry_witness :
    ((LiveStreamCache.init String).set "chan1" "payload" 0).has "chan1" = true
    ∧ (((LiveStreamCache.init String).set "chan1" "payload" 0).getStats
        400000).size =
        ((LiveStreamCache.init String).set "chan1" "payload" 0).cache.length
    ∧ ∃ e ∈ (((LiveStreamCache.init String).set "chan1" "payload" 0).getStats
        400000).entries, e.key = "chan1" ∧ e.expiresInSeconds ≤ 0 :=
  has_and_stats_ignore_expiry (LiveStreamCache.init String) "chan1" "payload"
    0 400000 (by decide)

/-! ## Claim theorems for the configuration manager -/

/-- C1 counterexample:  the initial document — reachable, and the value
broadcast by `getConfig` — carries the configured YouTube API key string
itself in its `youtubeApiKey` field, so the document does not restrict
itself to credential-presence fields. -/
theorem config_doc_contains_api_key :
    Reachable sampleCfg (initialConfig sampleCfg)
    ∧ (getConfig (initialConfig sampleCfg)).top.youtubeApiKey
        = "SECRET-API-KEY-123" :=
  ⟨Reachable.init, rfl⟩

/-- C1 amended:  the document returned by `getConfig` carries platform
credential values by value:  the `youtubeApiKey` field of the document
holds the configured API key verbatim (and `twitchConfig` the configured
bot username), for every static configuration. -/
theorem initial_config_carries_credentials (cfg : StaticConfig) :
    (getConfig (initialConfig cfg)).top.youtubeApiKey = cfg.youtube.apiKey
    ∧ (getConfig (initialConfig cfg)).top.twitchConfig.botUsername
        = cfg.twitch.botUsername :=
  ⟨rfl, rfl⟩

/-- The `platforms` replacement used in the C2 counterexample:  an
enabled YouTube connection with an empty video id. -/
def badPlatformsUpdate : ConfigUpdate :=
  { platforms := some
      { youtube := { enabled := true, videoId := "" }
        twitch := { enabled := false, channelId := "" } } }

/-- C2 counterexample:  the invariant holds in the initial document of
`sampleCfg`, yet one `updateConfig` call replacing the `platforms`
object reaches a document violating it, so the invariant is not
preserved by every transition. -/
theorem update_config_breaks_platform_invariant :
    platformInvariant (initialConfig sampleCfg)
    ∧ Reachable sampleCfg
        (updateConfig badPlatformsUpdate (initialConfig sampleCfg))
    ∧ ¬ platformInvariant
        (updateConfig badPlatformsUpdate (initialConfig sampleCfg)) :=
  ⟨by decide, Reachable.update badPlatformsUpdate Reachable.init, by decide⟩

theorem getD_ne_empty_of_jsTruthy {o : Option String}
    (h : jsTruthy o = true) : o.getD "" ≠ "" := by
  cases o with
  | none => simp [jsTruthy] at h
  | some s => simpa [jsTruthy] using h

/-- C2 amended:  the equivalence `enabled = true ↔ identifier non-empty`
holds in the initial document when the configured default identifiers
are empty, and it is preserved by `connectPlatform` and
`disconnectPlatform`; `updateConfig` does not preserve it, since a
partial update may replace the whole `platforms` object with one that
violates it. -/
theorem platform_invariant_preserved :
    (∀ cfg : StaticConfig, cfg.youtube.defaultVideoId = "" →
      cfg.twitch.defaultChannel = "" → platformInvariant (initialConfig cfg))
    ∧ (∀ (p : String) (d : ConnectionData) (c : ConfigDoc),
        platformInvariant c → platformInvariant (connectPlatform p d c))
    ∧ (∀ (p : Option String) (c : ConfigDoc),
        platformInvariant c → platformInvariant (disconnectPlatform p c)) := by
  refine ⟨?_, ?_, ?_⟩
  · intro cfg h1 h2
    simp [platformInvariant, initialConfig, h1, h2]
  · intro p d c hc
    unfold connectPlatform
    split_ifs with h1 h2
    · exact ⟨iff_of_true rfl (getD_ne_empty_of_jsTruthy h1.2), hc.2⟩
    · exact ⟨hc.1, iff_of_true rfl (getD_ne_empty_of_jsTruthy h2.2)⟩
    · exact hc
  · intro p c hc
    unfold disconnectPlatform
    split_ifs with h1 h2 h3
    · exact ⟨iff_of_false (by simp) (by simp), hc.2⟩
    · exact ⟨hc.1, iff_of_false (by simp) (by simp)⟩
    · exact hc
    · exact ⟨iff_of_false (by simp) (by simp), iff_of_false (by simp) (by simp)⟩

/-- Witness for `platform_invariant_preserved` on concrete documents and
transitions. -/
theorem platform_invariant_preserved_witness :
    platformInvariant (initialConfig sampleCfg)
    ∧ platformInvariant (connectPlatform "youtube"
        { platform := "youtube", videoId := some "abc123" }
        (initialConfig sampleCfg))
    ∧ platformInvariant (disconnectPlatform none (initialConfig sampleCfg)) := by
  have h0 := platform_invariant_preserved.1 sampleCfg rfl rfl
  exact ⟨h0, platform_invariant_preserved.2.1 _ _ _ h0,
    platform_invariant_preserved.2.2 _ _ h0⟩

/-- The partial update used in the C4 counterexample:  a volume of 2,
outside the unit interval. -/
def volumeTwoUpdate : ConfigUpdate := { volume := some 2 }

/-- C4 counterexample:  after `updateConfig` with a volume of 2, the
stored volume is 2 — `updateConfig` performs no volume clamping, so the
stored volume does not lie in the unit interval. -/
theorem update_config_does_not_clamp_volume :
    Reachable sampleCfg (updateConfig volumeTwoUpdate (initialConfig sampleCfg))
    ∧ (updateConfig volumeTwoUpdate (initialConfig sampleCfg)).top.volume = 2
    ∧ ¬ ((0 : Rat) ≤ (updateConfig volumeTwoUpdate
          (initialConfig sampleCfg)).top.volume
        ∧ (updateConfig volumeTwoUpdate
            (initialConfig sampleCfg)).top.volume ≤ 1) :=
  ⟨Reachable.update volumeTwoUpdate Reachable.init, rfl, by decide⟩

/-- C4 amended:  `updateConfig` validates nothing and clamps nothing;
whenever the partial update carries a volume, the stored volume is
exactly that value. -/
theorem update_config_stores_volume_verbatim (u : ConfigUpdate)
    (c : ConfigDoc) (q : Rat) (h : u.volume = some q) :
    (updateConfig u c).top.volume = q := by
  simp [updateConfig, h]

/-- Witness for `update_config_stores_volume_verbatim` at a concrete
update. -/
theorem update_config_stores_volume_verbatim_witness :
    (updateConfig volumeTwoUpdate (initialConfig sampleCfg)).top.volume = 2 :=
  update_config_stores_volume_verbatim volumeTwoUpdate
    (initialConfig sampleCfg) 2 rfl

/-! ## Claim theorems for the client manager -/

/-- Whether an effect is a serialization. -/
def isSerialize : Effect → Bool
  | Effect.serialize _ => true
  | Effect.send _ _ => false

theorem broadcastLoop_all_ok (message : String) (clients : List Session)
    (hok : ∀ c ∈ clients, c.sendOk = true) :
    broadcastLoop message clients =
      ((clients.filter (fun c => decide (c.readyState = WebSocketOPEN))).map
        (fun c => Effect.send c.id message), none) := by
  induction clients with
  | nil => simp [broadcastLoop]
  | cons c rest ih =>
    have hc := hok c (by simp)
    have hrest : ∀ s ∈ rest, s.sendOk = true := fun s hs => hok s (by simp [hs])
    by_cases h : c.readyState = WebSocketOPEN
    · simp [broadcastLoop, h, hc, ih hrest, List.filter_cons]
    · simp [broadcastLoop, h, ih hrest, List.filter_cons]

/-- C3:  if no send raises, `broadcast` leaves the client set untouched,
serializes the message exactly once, raises nothing, and sends that one
payload exactly to the sessions in the open state, in registration
order; when all `N` sessions are open this is one send per session,
`N` in total, all with the identical payload. -/
theorem broadcast_sends_once_per_open_session (stringify : OutMsg → String)
    (clients : List Session) (m : OutMsg)
    (hok : ∀ c ∈ clients, c.sendOk = true) :
    (broadcast stringify clients m).1 = clients
    ∧ (broadcast stringify clients m).2.2 = none
    ∧ (broadcast stringify clients m).2.1 =
        Effect.serialize (stringify m) ::
          (clients.filter (fun c => decide (c.readyState = WebSocketOPEN))).map
            (fun c => Effect.send c.id (stringify m))
    ∧ ((broadcast stringify clients m).2.1.countP isSerialize) = 1
    ∧ ((∀ c ∈ clients, c.readyState = WebSocketOPEN) →
        (broadcast stringify clients m).2.1 =
          Effect.serialize (stringify m) ::
            clients.map (fun c => Effect.send c.id (stringify m))) := by
  have hloop := broadcastLoop_all_ok (stringify m) clients hok
  refine ⟨rfl, ?_, ?_, ?_, ?_⟩
  · simp [broadcast, hloop]
  · simp [broadcast, hloop]
  · simp only [broadcast, hloop, List.countP_cons, isSerialize]
    rw [List.countP_eq_zero.2]
    · rfl
    · intro e he
      rcases List.mem_map.1 he with ⟨c, _, rfl⟩
      simp [isSerialize]
  · intro hopen
    simp only [broadcast, hloop]
    rw [List.filter_eq_self.2]
    intro c hcmem
    simpa using hopen c hcmem

/-- A pair of open, healthy demo sessions. -/
def demoClients : List Session :=
  [{ id := 1, readyState := 1, sendOk := true },
   { id := 2, readyState := 1, sendOk := true }]

/-- Witness for `broadcast_sends_once_per_open_session` on two open
sessions. -/
theorem broadcast_sends_once_per_open_session_witness :
    (broadcast (fun _ : OutMsg => "m") demoClients OutMsg.testSound).2.1 =
      [Effect.serialize "m", Effect.send 1 "m", Effect.send 2 "m"]
    ∧ (broadcast (fun _ : OutMsg => "m") demoClients OutMsg.testSound).2.2
        = none := by
  have h := broadcast_sends_once_per_open_session (fun _ : OutMsg => "m")
    demoClients OutMsg.testSound (by decide)
  exact ⟨by simpa [demoClients] using h.2.2.2.2 (by decide), h.2.1⟩

/-- An open session whose transport `send` raises. -/
def failingSession : Session := { id := 1, readyState := 1, sendOk := false }

/-- An open session after it in iteration order. -/
def healthySession : Session := { id := 2, readyState := 1, sendOk := true }

/-- C5 counterexample:  when the first open session's send raises,
`broadcast` lets the exception propagate and the remaining open session
receives nothing — the failure is not isolated. -/
theorem broadcast_failure_not_isolated :
    (broadcast (fun _ : OutMsg => "m") [failingSession, healthySession]
        OutMsg.testSound).2.2 = some "send failed"
    ∧ sendsTo 2 (broadcast (fun _ : OutMsg => "m")
        [failingSession, healthySession] OutMsg.testSound).2.1 = [] := by
  decide

theorem broadcastLoop_failure (message : String) (post : List Session)
    (s : Session) (hs : s.readyState = WebSocketOPEN)
    (hfail : s.sendOk = false) (pre : List Session)
    (hpre : ∀ c ∈ pre, c.readyState = WebSocketOPEN ∧ c.sendOk = true) :
    broadcastLoop message (pre ++ s :: post) =
      (pre.map (fun c => Effect.send c.id message), some "send failed") := by
  induction pre with
  | nil => simp [broadcastLoop, hs, hfail]
  | cons c rest ih =>
    have hc := hpre c (by simp)
    have hrest : ∀ x ∈ rest, x.readyState = WebSocketOPEN ∧ x.sendOk = true :=
      fun x hx => hpre x (by simp [hx])
    simp [broadcastLoop, hc.1, hc.2, ih hrest]

/-- C5 amended:  a raising send during `broadcast` is not isolated:  the
sends already made to earlier open sessions stand, no later session is
reached, and the error propagates out of the `broadcast` call (it is
swallowed only by the try/catch in `handleMessage`). -/
theorem broadcast_send_failure_aborts (stringify : OutMsg → String)
    (m : OutMsg) (pre post : List Session) (s : Session)
    (hpre : ∀ c ∈ pre, c.readyState = WebSocketOPEN ∧ c.sendOk = true)
    (hs : s.readyState = WebSocketOPEN) (hfail : s.sendOk = false) :
    (broadcast stringify (pre ++ s :: post) m).2.1 =
      Effect.serialize (stringify m) ::
        pre.map (fun c => Effect.send c.id (stringify m))
    ∧ (broadcast stringify (pre ++ s :: post) m).2.2 = some "send failed" := by
  have hloop := broadcastLoop_failure (stringify m) post s hs hfail pre hpre
  exact ⟨by simp [broadcast, hloop], by simp [broadcast, hloop]⟩

/-- Witness for `broadcast_send_failure_aborts`:  one healthy session
before the failing one, one after. -/
theorem broadcast_send_failure_aborts_witness :
    (broadcast (fun _ : OutMsg => "m")
        ([{ id := 3, readyState := 1, sendOk := true }] ++
          failingSession :: [healthySession]) OutMsg.testSound).2.1 =
      [Effect.serialize "m", Effect.send 3 "m"]
    ∧ (broadcast (fun _ : OutMsg => "m")
        ([{ id := 3, readyState := 1, sendOk := true }] ++
          failingSession :: [healthySession]) OutMsg.testSound).2.2
        = some "send failed" := by
  have h := broadcast_send_failure_aborts (fun _ : OutMsg => "m")
    OutMsg.testSound [{ id := 3, readyState := 1, sendOk := true }]
    [healthySession] failingSession (by decide) (by decide) (by decide)
  exact ⟨by simpa using h.1, h.2⟩

/-! ## Claim theorems for the message handlers and server loop -/

/-- A serialization that only records the outbound message kind, used to
observe which broadcast reached a session in concrete runs. -/
def stringifyTag : OutMsg → String
  | OutMsg.config _ => "config-broadcast"
  | OutMsg.chatMessage _ => "chat-broadcast"
  | OutMsg.testSound => "test-sound-broadcast"

/-- An open, healthy registered session used in concrete runs. -/
def viewerSession : Session := { id := 7, readyState := 1, sendOk := true }

/-- C6 counterexample:  a `connect` event with an unrecognized platform
name is invalid, leaves the document unchanged — and still results in a
`config` broadcast delivered to the registered session. -/
theorem invalid_connect_still_broadcasts :
    ¬ validConnect { platform := "bogus" }
    ∧ (step stringifyTag
        { clients := [viewerSession], doc := initialConfig sampleCfg }
        (SEvent.clientMessage (some (InMsg.connect
          { platform := "bogus" })))).1.doc = initialConfig sampleCfg
    ∧ sendsTo 7 (step stringifyTag
        { clients := [viewerSession], doc := initialConfig sampleCfg }
        (SEvent.clientMessage (some (InMsg.connect
          { platform := "bogus" })))).2 = ["config-broadcast"] :=
  ⟨by decide, rfl, rfl⟩

/-- C6 amended:  an invalid `connect` leaves the document unchanged but
still triggers exactly one `config` broadcast, carrying the unchanged
full document. -/
theorem invalid_connect_broadcasts_unchanged_config (d : ConnectionData)
    (c : ConfigDoc) (h : ¬ validConnect d) :
    handlePlatformConnect d c = (c, [OutMsg.config (getConfig c)]) := by
  have hc : connectPlatform d.platform d c = c := by
    simp only [connectPlatform]
    rw [if_neg (fun hcontra => h (Or.inl hcontra)),
      if_neg (fun hcontra => h (Or.inr hcontra))]
  simp [handlePlatformConnect, hc]

/-- Witness for `invalid_connect_broadcasts_unchanged_config` at an
unrecognized platform name. -/
theorem invalid_connect_broadcasts_unchanged_config_witness :
    handlePlatformConnect { platform := "bogus" } (initialConfig sampleCfg)
      = (initialConfig sampleCfg,
          [OutMsg.config (getConfig (initialConfig sampleCfg))]) :=
  invalid_connect_broadcasts_unchanged_config { platform := "bogus" }
    (initialConfig sampleCfg) (by decide)

/-- The world at startup in the reference-level model:  the store points
at heap cell 0, which holds the initial platform objects. -/
def world0 : RefState :=
  { heap := fun _ => (initialConfig sampleCfg).platforms
    store := { top := (initialConfig sampleCfg).top, platformsRef := 0 } }

/-- C7 counterexample:  the store observes an empty YouTube video id;
after a caller mutates the nested `platforms.youtube.videoId` of the
object `getConfig` returned, a later read of the store observes the
injected value — the returned object is not a by-value copy of the
nested sub-objects. -/
theorem get_config_copy_not_deep :
    (readStore world0).platforms.youtube.videoId = ""
    ∧ (readStore (writeYoutubeVideoId world0 (getConfigRef world0)
        "INJECTED")).platforms.youtube.videoId = "INJECTED" :=
  ⟨rfl, rfl⟩

/-- C7 amended:  `getConfig` returns a shallow copy:  the flat top-level
fields are copied by value and writing through the copy leaves the store
object itself untouched, but the nested `platforms` object is shared by
reference, so a nested write through the returned copy is observed by
every later read of the store. -/
theorem get_config_is_shallow_copy (w : RefState) (v : String) :
    (getConfigRef w).top = w.store.top
    ∧ (getConfigRef w).platformsRef = w.store.platformsRef
    ∧ (writeYoutubeVideoId w (getConfigRef w) v).store = w.store
    ∧ readStore (writeYoutubeVideoId w (getConfigRef w) v) =
        { platforms :=
            { w.heap w.store.platformsRef with youtube :=
                { (w.heap w.store.platformsRef).youtube with videoId := v } }
          top := w.store.top } := by
  refine ⟨rfl, rfl, rfl, ?_⟩
  simp [readStore, derefConfig, writeYoutubeVideoId, getConfigRef]

theorem sendsTo_append (sid : Nat) (a b : List Effect) :
    sendsTo sid (a ++ b) = sendsTo sid a ++ sendsTo sid b := by
  simp [sendsTo, List.filterMap_append]

/-- C8:  registering a new open session delivers to it exactly one
unicast — the serialization of the current full configuration document —
as the first message in its per-session delivery stream; everything
produced by subsequently handled events (broadcasts included) reaches it
only after that snapshot. -/
theorem new_session_gets_config_first (stringify : OutMsg → String)
    (σ : ServerState) (s : Session) (es : List SEvent)
    (hopen : s.readyState = WebSocketOPEN) (hok : s.sendOk = true) :
    sendsTo s.id (run stringify σ (SEvent.connection s :: es)).2 =
      stringify (OutMsg.config (getConfig σ.doc)) ::
        sendsTo s.id (run stringify
          { σ with clients := σ.clients ++ [s] } es).2 := by
  simp [run, step, sendToClient, hopen, hok, sendsTo_append, sendsTo]

/-- Witness for `new_session_gets_config_first`:  a session joining an
empty registry immediately receives the `config` snapshot. -/
theorem new_session_gets_config_first_witness :
    sendsTo 7 (run stringifyTag { clients := [], doc := initialConfig sampleCfg }
        [SEvent.connection viewerSession]).2 =
      "config-broadcast" :: sendsTo 7 (run stringifyTag
        { clients := [viewerSession], doc := initialConfig sampleCfg } []).2 := by
  have h := new_session_gets_config_first stringifyTag
    { clients := [], doc := initialConfig sampleCfg } viewerSession [] rfl rfl
  simpa [stringifyTag, viewerSession] using h

end LiveChatOverlay
